import Mathlib

/-!
Verification of the Echo anonymous compensation-and-review ledger.

The development shallowly embeds the local-simulation state machines of
`src/dapp/providers.ts` (the `EchoAPI` class and its `LocalOrgState`,
`LocalSalaryState`, `LocalReviewState` records), together with models of
the two Compact contract circuits (`confirmSalaryReceipt` of
`contracts/salary.compact` and `submitReview` / `advanceReviewPeriod` of
`contracts/review.compact`) whose sources are not part of the checked
tree and are therefore modelled from the specification.

JavaScript numbers are embedded as `Int` (amounts, scores) or `Nat`
(counters); all concrete values appearing in the claims are far below
2^53, where JavaScript arithmetic is exact.
-/

-- ============================================================
-- Shared data: five-score rating vectors
-- ============================================================

/-- Review ratings supplied to `submitReview` (`ReviewRatings` in
`src/contract/types.ts`): one score per category, a JavaScript number. -/
structure ReviewRatings where
  culture : Int
  compensation : Int
  management : Int
  workLifeBalance : Int
  careerGrowth : Int
deriving DecidableEq

/-- One category's five rating counters, the observable slots 0..4 of the
five-element JavaScript array in `LocalReviewState.ratingCounters`. -/
def RatingArray : Type := Fin 5 → Nat

instance : DecidableEq RatingArray := fun a b =>
  Fintype.decidablePiFintype a b

/-- Models the JavaScript write `arr[score - 1]++` on a five-element
counter array.  When `score - 1` lies in 0..4 the matching slot is
incremented; otherwise the write creates a property outside the
observable slots 0..4 (index -1 or 5), leaving all five counters
unchanged — exactly what `getReviewState` can observe. -/
def bumpScore (c : RatingArray) (score : Int) : RatingArray :=
  if h : 0 ≤ score - 1 ∧ score - 1 < 5 then
    Function.update c ⟨(score - 1).toNat, by omega⟩
      (c ⟨(score - 1).toNat, by omega⟩ + 1)
  else c

/-- Rating counters for the five categories
(`LocalReviewState.ratingCounters` in providers.ts). -/
structure RatingCounters where
  culture : RatingArray
  compensation : RatingArray
  management : RatingArray
  workLifeBalance : RatingArray
  careerGrowth : RatingArray
deriving DecidableEq

/-- Applies `bumpScore` to every category with its supplied score, the
five `r.ratingCounters.<cat>[ratings.<cat> - 1]++` lines of
`EchoAPI.submitReview`. -/
def bumpAll (c : RatingCounters) (rt : ReviewRatings) : RatingCounters where
  culture := bumpScore c.culture rt.culture
  compensation := bumpScore c.compensation rt.compensation
  management := bumpScore c.management rt.management
  workLifeBalance := bumpScore c.workLifeBalance rt.workLifeBalance
  careerGrowth := bumpScore c.careerGrowth rt.careerGrowth

/-- Sum of one category's five counters. -/
def ratingSum (c : RatingArray) : Nat :=
  c 0 + c 1 + c 2 + c 3 + c 4

-- ============================================================
-- Local simulation: salary ledger (providers.ts)
-- ============================================================

namespace EchoAPI

/-- Local-simulation salary state, `LocalSalaryState` in providers.ts.
`bands` is the five-element counter array. -/
structure LocalSalaryState where
  totalPaymentsProcessed : Nat
  totalPayrollAmount : Int
  currentPeriod : Nat
  activeDisputes : Nat
  bands : Fin 5 → Nat
  round : Nat
deriving DecidableEq

/-- Initial local salary state, `makeDefaultLocalSalary` in providers.ts. -/
def makeDefaultLocalSalary : LocalSalaryState where
  totalPaymentsProcessed := 0
  totalPayrollAmount := 0
  currentPeriod := 1
  activeDisputes := 0
  bands := fun _ => 0
  round := 0

/-- Parameter record of `EchoAPI.processSalaryPayment`. -/
structure PaymentParams where
  employeePublicKey : String
  amount : Int
  period : Int
  salaryBand : Int

/-- Index computed by
`Math.max(0, Math.min(4, params.salaryBand - 1))` in
`EchoAPI.processSalaryPayment`: the salary band clamped into the
zero-based range of the five-element `bands` array. -/
def bandIdx (salaryBand : Int) : Fin 5 :=
  ⟨(max 0 (min 4 (salaryBand - 1))).toNat, by omega⟩

/-- Local-simulation branch of `EchoAPI.processSalaryPayment`
(providers.ts): increments `totalPaymentsProcessed`, adds the amount to
`totalPayrollAmount`, increments the clamped band counter and `round`. -/
def processSalaryPayment (p : PaymentParams) (s : LocalSalaryState) :
    LocalSalaryState where
  totalPaymentsProcessed := s.totalPaymentsProcessed + 1
  totalPayrollAmount := s.totalPayrollAmount + p.amount
  currentPeriod := s.currentPeriod
  activeDisputes := s.activeDisputes
  bands := Function.update s.bands (bandIdx p.salaryBand)
    (s.bands (bandIdx p.salaryBand) + 1)
  round := s.round + 1

/-- Local-simulation branch of `EchoAPI.advancePeriod` (providers.ts):
increments `currentPeriod` and `round`; the trend snapshot it also
records lives outside the salary ledger state and reads it only. -/
def advancePeriod (s : LocalSalaryState) : LocalSalaryState where
  totalPaymentsProcessed := s.totalPaymentsProcessed
  totalPayrollAmount := s.totalPayrollAmount
  currentPeriod := s.currentPeriod + 1
  activeDisputes := s.activeDisputes
  bands := s.bands
  round := s.round

/-- Public salary-ledger view returned by `EchoAPI.getSalaryState`
(providers.ts, local-simulation branch), the `SalaryLedgerState` shape
of `src/contract/types.ts` with the band record flattened. -/
structure SalaryLedgerView where
  orgAdmin : String
  totalPaymentsProcessed : Nat
  totalPayrollAmount : Int
  currentPeriod : Nat
  activeDisputes : Nat
  band1 : Nat
  band2 : Nat
  band3 : Nat
  band4 : Nat
  band5 : Nat
  round : Nat
deriving DecidableEq

/-- Local-simulation branch of `EchoAPI.getSalaryState`: every public
field of the salary ledger, with `orgAdmin` the 64-zero placeholder
`"0".repeat(64)`. -/
def getSalaryState (s : LocalSalaryState) : SalaryLedgerView where
  orgAdmin := String.mk (List.replicate 64 (Char.ofNat 48))
  totalPaymentsProcessed := s.totalPaymentsProcessed
  totalPayrollAmount := s.totalPayrollAmount
  currentPeriod := s.currentPeriod
  activeDisputes := s.activeDisputes
  band1 := s.bands 0
  band2 := s.bands 1
  band3 := s.bands 2
  band4 := s.bands 3
  band5 := s.bands 4
  round := s.round

/-- Fold of `processSalaryPayment` over a call sequence, starting from
the initial local salary state. -/
def processSeq (calls : List PaymentParams) : LocalSalaryState :=
  calls.foldl (fun s p => processSalaryPayment p s) makeDefaultLocalSalary

-- ============================================================
-- Local simulation: organization ledger (providers.ts)
-- ============================================================

/-- Local-simulation organization state, `LocalOrgState` in
providers.ts. -/
structure LocalOrgState where
  employeeCount : Nat
  hrOperatorCount : Nat
  auditorCount : Nat
  round : Nat
  status : String
  employees : List String
  hrOperators : List String
deriving DecidableEq

/-- Initial local organization state, `makeDefaultLocalOrg` in
providers.ts. -/
def makeDefaultLocalOrg : LocalOrgState where
  employeeCount := 0
  hrOperatorCount := 0
  auditorCount := 0
  round := 0
  status := "ACTIVE"
  employees := []
  hrOperators := []

/-- Local-simulation branch of `EchoAPI.onboardEmployee` (providers.ts):
pushes the commitment onto `employees` and increments `employeeCount`
and `round`. -/
def onboardEmployee (employeeCommitment : String) (o : LocalOrgState) :
    LocalOrgState where
  employeeCount := o.employeeCount + 1
  hrOperatorCount := o.hrOperatorCount
  auditorCount := o.auditorCount
  round := o.round + 1
  status := o.status
  employees := o.employees ++ [employeeCommitment]
  hrOperators := o.hrOperators

/-- Local-simulation branch of `EchoAPI.offboardEmployee`
(providers.ts): decrements `employeeCount` when positive and increments
`round`.  The `employees` list is not touched and no revocation set
exists in the local simulation; the nullifier argument is ignored. -/
def offboardEmployee (employeeNullifier : String) (o : LocalOrgState) :
    LocalOrgState where
  employeeCount := if 0 < o.employeeCount then o.employeeCount - 1
    else o.employeeCount
  hrOperatorCount := o.hrOperatorCount
  auditorCount := o.auditorCount
  round := o.round + 1
  status := o.status
  employees := o.employees
  hrOperators := o.hrOperators

-- ============================================================
-- Local simulation: review ledger (providers.ts)
-- ============================================================

/-- Local-simulation review state, `LocalReviewState` in providers.ts. -/
structure LocalReviewState where
  totalReviews : Nat
  currentReviewPeriod : Nat
  round : Nat
  ratingCounters : RatingCounters
deriving DecidableEq

/-- Initial local review state, `makeDefaultLocalReview` in
providers.ts. -/
def makeDefaultLocalReview : LocalReviewState where
  totalReviews := 0
  currentReviewPeriod := 1
  round := 0
  ratingCounters :=
    { culture := fun _ => 0
      compensation := fun _ => 0
      management := fun _ => 0
      workLifeBalance := fun _ => 0
      careerGrowth := fun _ => 0 }

/-- Local-simulation branch of `EchoAPI.submitReview` (providers.ts):
writes `ratingCounters.<cat>[ratings.<cat> - 1]++` for each of the five
categories, then increments `totalReviews` and `round`.  No range
validation is performed on the scores and the call never rejects; the
off-chain `PublishedReview` record it also appends lives outside the
review ledger state. -/
def submitReview (ratings : ReviewRatings) (r : LocalReviewState) :
    LocalReviewState where
  totalReviews := r.totalReviews + 1
  currentReviewPeriod := r.currentReviewPeriod
  round := r.round + 1
  ratingCounters := bumpAll r.ratingCounters ratings

-- ============================================================
-- Operation alphabets of the two local ledgers
-- ============================================================

/-- All `EchoAPI` local-simulation operations that receive the salary
ledger state: `processSalaryPayment`, `confirmSalaryReceipt` (returns a
constant success and leaves the state untouched), `proveSalaryRange`
(stateless) and `advancePeriod`. -/
inductive SalaryOp where
  | processPayment (p : PaymentParams)
  | confirmReceipt
  | proveRange (lowerBound upperBound : Int)
  | advance

/-- Transition function of the local salary ledger. -/
def salaryStep (op : SalaryOp) (s : LocalSalaryState) : LocalSalaryState :=
  match op with
  | .processPayment p => processSalaryPayment p s
  | .confirmReceipt => s
  | .proveRange _ _ => s
  | .advance => advancePeriod s

/-- All `EchoAPI` local-simulation operations that receive the review
ledger state: only `submitReview` mutates it (the local simulation has
no review-period advance). -/
inductive ReviewOp where
  | submit (ratings : ReviewRatings)

/-- Transition function of the local review ledger. -/
def reviewStep (op : ReviewOp) (r : LocalReviewState) : LocalReviewState :=
  match op with
  | .submit ratings => submitReview ratings r

end EchoAPI

-- ============================================================
-- Category view over the five rating categories
-- ============================================================

/-- The five rating categories of the review ledger. -/
inductive Category where
  | culture
  | compensation
  | management
  | workLifeBalance
  | careerGrowth
deriving DecidableEq, Fintype

/-- Selects one category's counter array. -/
def RatingCounters.get (c : RatingCounters) : Category → RatingArray
  | .culture => c.culture
  | .compensation => c.compensation
  | .management => c.management
  | .workLifeBalance => c.workLifeBalance
  | .careerGrowth => c.careerGrowth

/-- Selects one category's supplied score. -/
def ReviewRatings.score (rt : ReviewRatings) : Category → Int
  | .culture => rt.culture
  | .compensation => rt.compensation
  | .management => rt.management
  | .workLifeBalance => rt.workLifeBalance
  | .careerGrowth => rt.careerGrowth

/-- Categorywise description of `bumpAll`. -/
theorem bumpAll_get (c : RatingCounters) (rt : ReviewRatings)
    (cat : Category) :
    (bumpAll c rt).get cat = bumpScore (c.get cat) (rt.score cat) := by
  cases cat <;> rfl

-- ============================================================
-- Salary contract circuit model (contracts/salary.compact)
-- ============================================================

namespace SalaryContract

/-- Modelled from the spec: the receipt nullifier of §3 and §4.2, a
deterministic collision-free digest of (payee secret, commitment
reference), here the Cantor-style pairing function standing in for the
hash; `contracts/salary.compact` is referenced by the repository but its
source is not under the checked tree. -/
def receiptNullifier (payeeSecret commitmentRef : Nat) : Nat :=
  Nat.pair payeeSecret commitmentRef

/-- Modelled from the spec: the review-token commitment of §3,
commitment(payee secret, period, randomness), again a pairing digest. -/
def reviewTokenCommitment (payeeSecret period randomness : Nat) : Nat :=
  Nat.pair payeeSecret (Nat.pair period randomness)

/-- Outcome of the receipt-confirmation circuit. -/
inductive ConfirmResult where
  | ok
  | alreadyClaimed
  | proofInvalid
deriving DecidableEq

/-- Modelled from the spec: the Payment Registry state of §4.2 needed by
`confirmSalaryReceipt` — the payment tree, the receipt-nullifier set,
the token outbox, the five band counters and the remaining public
counters. -/
structure PaymentRegistry where
  paymentTree : List Nat
  receiptNullifierSet : List Nat
  tokenCommitmentOutbox : List Nat
  bands : Fin 5 → Nat
  totalProcessed : Nat
  totalAmount : Nat
  currentPeriod : Nat
deriving DecidableEq

/-- Modelled from the spec: the `confirmSalaryReceipt` circuit of
`contracts/salary.compact` (§4.2 `confirmReceipt`): the payee supplies an
opening of some leaf of `paymentTree` plus their own secret; the circuit
derives the receipt nullifier, rejects with `AlreadyClaimed` when it is
already in `receiptNullifierSet`, otherwise inserts it and places a
fresh review-token commitment in the outbox.  A rejected transition
leaves the state unchanged. -/
def confirmSalaryReceipt (payeeSecret commitmentRef randomness : Nat)
    (s : PaymentRegistry) : ConfirmResult × PaymentRegistry :=
  if commitmentRef ∈ s.paymentTree then
    if receiptNullifier payeeSecret commitmentRef ∈ s.receiptNullifierSet then
      (.alreadyClaimed, s)
    else
      (.ok,
        { s with
          receiptNullifierSet :=
            receiptNullifier payeeSecret commitmentRef ::
              s.receiptNullifierSet
          tokenCommitmentOutbox :=
            reviewTokenCommitment payeeSecret s.currentPeriod randomness ::
              s.tokenCommitmentOutbox })
  else
    (.proofInvalid, s)

end SalaryContract

-- ============================================================
-- Review contract circuit model (contracts/review.compact)
-- ============================================================

namespace ReviewContract

/-- Modelled from the spec: the review nullifier of §3 and §4.3, a
deterministic digest of (token secret, period), here the pairing
function; `contracts/review.compact` is referenced by the repository but
its source is not under the checked tree. -/
def reviewNullifier (tokenSecret period : Nat) : Nat :=
  Nat.pair tokenSecret period

/-- Modelled from the spec: the imported token commitment, a binding
digest of (token secret, randomness). -/
def tokenCommitment (tokenSecret randomness : Nat) : Nat :=
  Nat.pair tokenSecret randomness

/-- Outcome of the review-submission circuit. -/
inductive SubmitResult where
  | ok
  | doubleReview
  | proofInvalid
deriving DecidableEq

/-- Modelled from the spec: the Review Registry state of §4.3 — the
imported-token tree, the review-nullifier set, the 25 rating counters,
the stored content hashes, `totalReviews` and `currentPeriod`. -/
structure ReviewRegistry where
  importedTokenTree : List Nat
  reviewNullifierSet : List Nat
  counters : RatingCounters
  reviewHashes : List Nat
  totalReviews : Nat
  currentPeriod : Nat
deriving DecidableEq

/-- Modelled from the spec: the `submitReview` circuit of
`contracts/review.compact` (§4.3): the caller proves membership of a
token leaf in `importedTokenTree` and knowledge of its secret; the
circuit derives the review nullifier scoped to (token secret,
currentPeriod), rejects with `DoubleReview` when it already exists,
otherwise inserts it, increments the matching counter of each category,
stores the content hash verbatim and increments `totalReviews`.  A
rejected transition leaves the state unchanged. -/
def submitReview (tokenSecret randomness contentHash : Nat)
    (ratings : ReviewRatings) (s : ReviewRegistry) :
    SubmitResult × ReviewRegistry :=
  if tokenCommitment tokenSecret randomness ∈ s.importedTokenTree then
    if reviewNullifier tokenSecret s.currentPeriod ∈ s.reviewNullifierSet then
      (.doubleReview, s)
    else
      (.ok,
        { s with
          reviewNullifierSet :=
            reviewNullifier tokenSecret s.currentPeriod ::
              s.reviewNullifierSet
          counters := bumpAll s.counters ratings
          reviewHashes := contentHash :: s.reviewHashes
          totalReviews := s.totalReviews + 1 })
  else
    (.proofInvalid, s)

/-- Modelled from the spec: the `advanceReviewPeriod` circuit of
`contracts/review.compact` (§4.3): admin-only, increments
`currentPeriod`, re-scoping future review nullifiers. -/
def advanceReviewPeriod (s : ReviewRegistry) : ReviewRegistry :=
  { s with currentPeriod := s.currentPeriod + 1 }

end ReviewContract

-- ============================================================
-- Derived quantities and concrete sample inputs
-- ============================================================

/-- Sum of the five band counters of the local salary ledger. -/
def EchoAPI.bandSum (s : EchoAPI.LocalSalaryState) : Nat :=
  s.bands 0 + s.bands 1 + s.bands 2 + s.bands 3 + s.bands 4

/-- Sample payment-call sequence: bands 3, 3 and 1. -/
def demoCalls : List EchoAPI.PaymentParams :=
  [⟨"e1", 100, 1, 3⟩, ⟨"e2", 200, 1, 3⟩, ⟨"e3", 50, 1, 1⟩]

/-- Sample payment-registry state holding one payment commitment. -/
def demoRegistry : SalaryContract.PaymentRegistry where
  paymentTree := [5]
  receiptNullifierSet := []
  tokenCommitmentOutbox := []
  bands := fun _ => 0
  totalProcessed := 1
  totalAmount := 100
  currentPeriod := 1

/-- Sample review-registry state holding one imported token commitment
for token secret 2 and randomness 9. -/
def demoReviewRegistry : ReviewContract.ReviewRegistry where
  importedTokenTree := [Nat.pair 2 9]
  reviewNullifierSet := []
  counters :=
    { culture := fun _ => 0
      compensation := fun _ => 0
      management := fun _ => 0
      workLifeBalance := fun _ => 0
      careerGrowth := fun _ => 0 }
  reviewHashes := []
  totalReviews := 0
  currentPeriod := 1

/-- Sample organization state with one onboarded employee. -/
def demoOrg : EchoAPI.LocalOrgState :=
  EchoAPI.onboardEmployee "emp" EchoAPI.makeDefaultLocalOrg

-- ============================================================
-- Helper lemmas
-- ============================================================

/-- Pointwise effect of the clamped-score write when the score is in
range 1..5: the slot matching the score is incremented, all others are
unchanged. -/
theorem bumpScore_apply_of_range (c : RatingArray) (score : Int)
    (h1 : 1 ≤ score) (h5 : score ≤ 5) (j : Fin 5) :
    bumpScore c score j
      = c j + (if (j.val : Int) + 1 = score then 1 else 0) := by
  have hj := j.isLt
  have hcond : 0 ≤ score - 1 ∧ score - 1 < 5 := by omega
  have hanchor : ((score - 1).toNat : Nat) < 5 := by omega
  rw [bumpScore, dif_pos hcond, Function.update_apply]
  by_cases hsc : (j.val : Int) + 1 = score
  · have hj2 : j = (⟨(score - 1).toNat, hanchor⟩ : Fin 5) := by
      apply Fin.ext
      simp only []
      omega
    rw [if_pos hsc, if_pos hj2, hj2]
  · have hj2 : j ≠ (⟨(score - 1).toNat, hanchor⟩ : Fin 5) := by
      intro h
      apply hsc
      have := congrArg Fin.val h
      simp only [] at this
      omega
    rw [if_neg hsc, if_neg hj2, Nat.add_zero]

/-- Effect of the clamped-score write when the score is outside 1..5:
the JavaScript write lands outside the five observable slots and every
counter is unchanged. -/
theorem bumpScore_out_of_range (c : RatingArray) (score : Int)
    (h : score < 1 ∨ 5 < score) : bumpScore c score = c := by
  rw [bumpScore, dif_neg]
  omega

/-- The clamped-score write never decreases a counter. -/
theorem bumpScore_mono (c : RatingArray) (score : Int) (j : Fin 5) :
    c j ≤ bumpScore c score j := by
  rw [bumpScore]
  split
  · rw [Function.update_apply]
    split
    · rename_i hcond hj
      rw [hj]
      omega
    · exact Nat.le_refl _
  · exact Nat.le_refl _

namespace EchoAPI

/-- Pointwise effect of `processSalaryPayment` on the band counters:
the clamped band slot is incremented, all others are unchanged. -/
theorem processSalaryPayment_bands_apply (p : PaymentParams)
    (s : LocalSalaryState) (k : Fin 5) :
    (processSalaryPayment p s).bands k
      = s.bands k + (if bandIdx p.salaryBand = k then 1 else 0) := by
  rw [processSalaryPayment]
  simp only [Function.update_apply]
  by_cases h : k = bandIdx p.salaryBand
  · rw [if_pos h, if_pos h.symm, h]
  · rw [if_neg h, if_neg (fun hh => h hh.symm), Nat.add_zero]

/-- Characterisation of the clamped band index for in-range bands. -/
theorem bandIdx_eq_iff (b : Int) (h1 : 1 ≤ b) (h5 : b ≤ 5) (k : Fin 5) :
    bandIdx b = k ↔ b = (k.val : Int) + 1 := by
  have hk := k.isLt
  rw [Fin.ext_iff, bandIdx]
  simp only []
  omega

/-- Cumulative payment count over a fold of payments from any start
state. -/
theorem foldl_process_total (calls : List PaymentParams)
    (s : LocalSalaryState) :
    (calls.foldl (fun t p => processSalaryPayment p t)
        s).totalPaymentsProcessed
      = s.totalPaymentsProcessed + calls.length := by
  induction calls generalizing s with
  | nil => rfl
  | cons p rest ih =>
    rw [List.foldl_cons, ih]
    simp only [processSalaryPayment, List.length_cons]
    omega

/-- Cumulative band counts over a fold of in-range payments from any
start state. -/
theorem foldl_process_bands (calls : List PaymentParams)
    (s : LocalSalaryState) (k : Fin 5)
    (hb : ∀ p ∈ calls, 1 ≤ p.salaryBand ∧ p.salaryBand ≤ 5) :
    (calls.foldl (fun t p => processSalaryPayment p t) s).bands k
      = s.bands k
        + calls.countP (fun p => p.salaryBand == (k.val : Int) + 1) := by
  induction calls generalizing s with
  | nil => rfl
  | cons p rest ih =>
    have hp := hb p (List.mem_cons_self p rest)
    have hrest : ∀ q ∈ rest, 1 ≤ q.salaryBand ∧ q.salaryBand ≤ 5 :=
      fun q hq => hb q (List.mem_cons_of_mem p hq)
    rw [List.foldl_cons, ih _ hrest, processSalaryPayment_bands_apply,
      List.countP_cons]
    have hiff : (bandIdx p.salaryBand = k)
        ↔ (p.salaryBand == (k.val : Int) + 1) = true := by
      rw [beq_iff_eq]
      exact bandIdx_eq_iff p.salaryBand hp.1 hp.2 k
    by_cases hcase : bandIdx p.salaryBand = k
    · rw [if_pos hcase, if_pos (hiff.mp hcase)]
      omega
    · rw [if_neg hcase, if_neg (fun hh => hcase (hiff.mpr hh))]
      omega

end EchoAPI

-- ============================================================
-- Claim theorems
-- ============================================================

/-- Claim C3: after `n` successful `processSalaryPayment` calls with
bands `b_1..b_n`, each in 1..5, starting from the initial local state,
`totalPaymentsProcessed` equals `n` and each band counter equals the
number of calls that carried that band. -/
theorem counter_conservation (calls : List EchoAPI.PaymentParams)
    (hb : ∀ p ∈ calls, 1 ≤ p.salaryBand ∧ p.salaryBand ≤ 5) :
    (EchoAPI.processSeq calls).totalPaymentsProcessed = calls.length ∧
    ∀ k : Fin 5, (EchoAPI.processSeq calls).bands k
      = calls.countP (fun p => p.salaryBand == (k.val : Int) + 1) := by
  constructor
  · rw [EchoAPI.processSeq, EchoAPI.foldl_process_total]
    simp [EchoAPI.makeDefaultLocalSalary]
  · intro k
    rw [EchoAPI.processSeq, EchoAPI.foldl_process_bands calls _ k hb]
    simp [EchoAPI.makeDefaultLocalSalary]

/-- Witness for C3 at the concrete call sequence `demoCalls`. -/
theorem counter_conservation_witness :
    (∀ p ∈ demoCalls, 1 ≤ p.salaryBand ∧ p.salaryBand ≤ 5) ∧
    ((EchoAPI.processSeq demoCalls).totalPaymentsProcessed
        = demoCalls.length ∧
      ∀ k : Fin 5, (EchoAPI.processSeq demoCalls).bands k
        = demoCalls.countP (fun p => p.salaryBand == (k.val : Int) + 1)) :=
  ⟨by decide, counter_conservation demoCalls (by decide)⟩

/-- Claim C4: an accepted `submitReview` call whose five category scores
are each in 1..5 increments, per category, exactly the counter matching
the supplied score (all other rating counters unchanged) and increments
`totalReviews` by one. -/
theorem review_rating_tally (ratings : ReviewRatings)
    (r : EchoAPI.LocalReviewState)
    (hin : ∀ cat : Category,
      1 ≤ ratings.score cat ∧ ratings.score cat ≤ 5) :
    (EchoAPI.submitReview ratings r).totalReviews = r.totalReviews + 1 ∧
    ∀ (cat : Category) (j : Fin 5),
      (EchoAPI.submitReview ratings r).ratingCounters.get cat j
        = r.ratingCounters.get cat j
          + (if (j.val : Int) + 1 = ratings.score cat then 1 else 0) := by
  refine ⟨rfl, ?_⟩
  intro cat j
  show (bumpAll r.ratingCounters ratings).get cat j = _
  rw [bumpAll_get,
    bumpScore_apply_of_range _ _ (hin cat).1 (hin cat).2]

/-- Witness for C4 at scores (5,4,3,4,5) on the initial review state. -/
theorem review_rating_tally_witness :
    (∀ cat : Category,
      1 ≤ (⟨5, 4, 3, 4, 5⟩ : ReviewRatings).score cat ∧
        (⟨5, 4, 3, 4, 5⟩ : ReviewRatings).score cat ≤ 5) ∧
    ((EchoAPI.submitReview ⟨5, 4, 3, 4, 5⟩
          EchoAPI.makeDefaultLocalReview).totalReviews
        = EchoAPI.makeDefaultLocalReview.totalReviews + 1 ∧
      ∀ (cat : Category) (j : Fin 5),
        (EchoAPI.submitReview ⟨5, 4, 3, 4, 5⟩
            EchoAPI.makeDefaultLocalReview).ratingCounters.get cat j
          = EchoAPI.makeDefaultLocalReview.ratingCounters.get cat j
            + (if (j.val : Int) + 1
                = (⟨5, 4, 3, 4, 5⟩ : ReviewRatings).score cat
              then 1 else 0)) :=
  ⟨by decide,
   review_rating_tally ⟨5, 4, 3, 4, 5⟩ EchoAPI.makeDefaultLocalReview
     (by decide)⟩

/-- Claim C7: `advancePeriod` increments `currentPeriod` by exactly one
and leaves every band counter, `totalPaymentsProcessed` and
`totalPayrollAmount` unchanged. -/
theorem advance_period_frame (s : EchoAPI.LocalSalaryState) :
    (EchoAPI.advancePeriod s).currentPeriod = s.currentPeriod + 1 ∧
    (∀ k : Fin 5, (EchoAPI.advancePeriod s).bands k = s.bands k) ∧
    (EchoAPI.advancePeriod s).totalPaymentsProcessed
      = s.totalPaymentsProcessed ∧
    (EchoAPI.advancePeriod s).totalPayrollAmount
      = s.totalPayrollAmount :=
  ⟨rfl, fun _ => rfl, rfl, rfl⟩

/-- Counterexample to C5: two `processSalaryPayment` runs from the
initial state that differ only in the private amount (100 versus 200)
but agree on the band produce different public salary-ledger states,
because `getSalaryState` exposes `totalPayrollAmount`. -/
theorem salary_state_reveals_amount :
    EchoAPI.getSalaryState (EchoAPI.processSalaryPayment
        ⟨"e", 100, 1, 3⟩ EchoAPI.makeDefaultLocalSalary)
      ≠ EchoAPI.getSalaryState (EchoAPI.processSalaryPayment
        ⟨"e", 200, 1, 3⟩ EchoAPI.makeDefaultLocalSalary) := by
  decide

/-- Claim C5 as amended: two `processSalaryPayment` runs that differ
only in the private amount but agree on the band produce public
salary-ledger states identical in every field except
`totalPayrollAmount`, which accumulates the exact amounts — so the band
index and the cumulative payroll amount are disclosed, and nothing
else distinguishes the two runs. -/
theorem band_only_disclosure_except_payroll (pk : String)
    (a1 a2 per band : Int) (s : EchoAPI.LocalSalaryState) :
    let v1 := EchoAPI.getSalaryState
      (EchoAPI.processSalaryPayment ⟨pk, a1, per, band⟩ s)
    let v2 := EchoAPI.getSalaryState
      (EchoAPI.processSalaryPayment ⟨pk, a2, per, band⟩ s)
    v1.orgAdmin = v2.orgAdmin ∧
    v1.totalPaymentsProcessed = v2.totalPaymentsProcessed ∧
    v1.currentPeriod = v2.currentPeriod ∧
    v1.activeDisputes = v2.activeDisputes ∧
    v1.band1 = v2.band1 ∧ v1.band2 = v2.band2 ∧ v1.band3 = v2.band3 ∧
    v1.band4 = v2.band4 ∧ v1.band5 = v2.band5 ∧
    v1.round = v2.round ∧
    v1.totalPayrollAmount = s.totalPayrollAmount + a1 ∧
    v2.totalPayrollAmount = s.totalPayrollAmount + a2 :=
  ⟨rfl, rfl, rfl, rfl, rfl, rfl, rfl, rfl, rfl, rfl, rfl, rfl⟩

/-- Counterexample to C6: offboarding on a state with one onboarded
member decreases `employeeCount` from 1 to 0, so the count of onboarded
members is not left unchanged. -/
theorem offboard_decrements_count :
    (EchoAPI.offboardEmployee "nf" demoOrg).employeeCount
      ≠ demoOrg.employeeCount := by
  decide

/-- Claim C6 as amended: `offboardEmployee` does not remove the
member's leaf — the `employees` and `hrOperators` lists are unchanged —
but in local-simulation mode it does decrement `employeeCount` by one
whenever the count is positive (and increments `round`); no revocation
set exists in the local simulation. -/
theorem offboard_keeps_tree_decrements_count (nf : String)
    (o : EchoAPI.LocalOrgState) (h : 0 < o.employeeCount) :
    (EchoAPI.offboardEmployee nf o).employees = o.employees ∧
    (EchoAPI.offboardEmployee nf o).hrOperators = o.hrOperators ∧
    (EchoAPI.offboardEmployee nf o).employeeCount + 1 = o.employeeCount ∧
    (EchoAPI.offboardEmployee nf o).round = o.round + 1 := by
  refine ⟨rfl, rfl, ?_, rfl⟩
  show (if 0 < o.employeeCount then o.employeeCount - 1
      else o.employeeCount) + 1 = o.employeeCount
  rw [if_pos h]
  omega

/-- Witness for the amended C6 on the one-member state `demoOrg`. -/
theorem offboard_keeps_tree_decrements_count_witness :
    0 < demoOrg.employeeCount ∧
    ((EchoAPI.offboardEmployee "nf" demoOrg).employees
        = demoOrg.employees ∧
      (EchoAPI.offboardEmployee "nf" demoOrg).hrOperators
        = demoOrg.hrOperators ∧
      (EchoAPI.offboardEmployee "nf" demoOrg).employeeCount + 1
        = demoOrg.employeeCount ∧
      (EchoAPI.offboardEmployee "nf" demoOrg).round
        = demoOrg.round + 1) :=
  ⟨by decide, offboard_keeps_tree_decrements_count "nf" demoOrg (by decide)⟩

/-- Claim C8: no operation of the local payment or review ledger ever
decreases any of the five band counters or any of the 25 per-category
rating counters. -/
theorem counters_monotone :
    (∀ (op : EchoAPI.SalaryOp) (s : EchoAPI.LocalSalaryState)
        (k : Fin 5), s.bands k ≤ (EchoAPI.salaryStep op s).bands k) ∧
    (∀ (op : EchoAPI.ReviewOp) (r : EchoAPI.LocalReviewState)
        (cat : Category) (j : Fin 5),
        r.ratingCounters.get cat j
          ≤ (EchoAPI.reviewStep op r).ratingCounters.get cat j) := by
  constructor
  · intro op s k
    cases op with
    | processPayment p =>
      show s.bands k ≤ (EchoAPI.processSalaryPayment p s).bands k
      rw [EchoAPI.processSalaryPayment_bands_apply]
      exact Nat.le_add_right _ _
    | confirmReceipt => exact Nat.le_refl _
    | proveRange lo hi => exact Nat.le_refl _
    | advance => exact Nat.le_refl _
  · intro op r cat j
    cases op with
    | submit ratings =>
      show r.ratingCounters.get cat j
        ≤ (bumpAll r.ratingCounters ratings).get cat j
      rw [bumpAll_get]
      exact bumpScore_mono _ _ _

/-- Claim C9: `processSalaryPayment` clamps the supplied band into 1..5
(values below 1 land on band 1, values above 5 on band 5), every call
increments exactly one band counter, and the invariant that the five
band counters sum to `totalPaymentsProcessed` is preserved by every
operation of the local salary ledger regardless of the band
argument. -/
theorem band_clamp_and_sum_invariant :
    (∀ b : Int, b ≤ 1 → (EchoAPI.bandIdx b).val = 0) ∧
    (∀ b : Int, 5 ≤ b → (EchoAPI.bandIdx b).val = 4) ∧
    (∀ (p : EchoAPI.PaymentParams) (s : EchoAPI.LocalSalaryState),
        (EchoAPI.processSalaryPayment p s).bands
            (EchoAPI.bandIdx p.salaryBand)
          = s.bands (EchoAPI.bandIdx p.salaryBand) + 1 ∧
        ∀ k : Fin 5, k ≠ EchoAPI.bandIdx p.salaryBand →
          (EchoAPI.processSalaryPayment p s).bands k = s.bands k) ∧
    (∀ (op : EchoAPI.SalaryOp) (s : EchoAPI.LocalSalaryState),
        EchoAPI.bandSum s = s.totalPaymentsProcessed →
        EchoAPI.bandSum (EchoAPI.salaryStep op s)
          = (EchoAPI.salaryStep op s).totalPaymentsProcessed) := by
  refine ⟨?_, ?_, ?_, ?_⟩
  · intro b hb
    rw [EchoAPI.bandIdx]
    simp only []
    omega
  · intro b hb
    rw [EchoAPI.bandIdx]
    simp only []
    omega
  · intro p s
    constructor
    · rw [EchoAPI.processSalaryPayment_bands_apply, if_pos rfl]
    · intro k hk
      rw [EchoAPI.processSalaryPayment_bands_apply,
        if_neg (fun hh => hk hh.symm), Nat.add_zero]
  · intro op s hsum
    cases op with
    | processPayment p =>
      show EchoAPI.bandSum (EchoAPI.processSalaryPayment p s)
        = (EchoAPI.processSalaryPayment p s).totalPaymentsProcessed
      have h := EchoAPI.processSalaryPayment_bands_apply p s
      have htot : (EchoAPI.processSalaryPayment p s).totalPaymentsProcessed
          = s.totalPaymentsProcessed + 1 := rfl
      rw [EchoAPI.bandSum, h 0, h 1, h 2, h 3, h 4, htot]
      rw [EchoAPI.bandSum] at hsum
      generalize EchoAPI.bandIdx p.salaryBand = i at *
      fin_cases i <;> simp <;> omega
    | confirmReceipt => exact hsum
    | proveRange lo hi => exact hsum
    | advance => exact hsum

/-- Witness for C9: clamping at bands 0 and 7, the single-increment
behaviour at band 9, and the sum invariant across a payment with the
out-of-range band 9 from the initial state. -/
theorem band_clamp_and_sum_invariant_witness :
    (EchoAPI.bandIdx 0).val = 0 ∧
    (EchoAPI.bandIdx 7).val = 4 ∧
    (EchoAPI.processSalaryPayment ⟨"e", 100, 1, 9⟩
        EchoAPI.makeDefaultLocalSalary).bands (EchoAPI.bandIdx 9)
      = EchoAPI.makeDefaultLocalSalary.bands (EchoAPI.bandIdx 9) + 1 ∧
    (EchoAPI.processSalaryPayment ⟨"e", 100, 1, 9⟩
        EchoAPI.makeDefaultLocalSalary).bands 0
      = EchoAPI.makeDefaultLocalSalary.bands 0 ∧
    EchoAPI.bandSum (EchoAPI.salaryStep
        (EchoAPI.SalaryOp.processPayment ⟨"e", 100, 1, 9⟩)
        EchoAPI.makeDefaultLocalSalary)
      = (EchoAPI.salaryStep
          (EchoAPI.SalaryOp.processPayment ⟨"e", 100, 1, 9⟩)
          EchoAPI.makeDefaultLocalSalary).totalPaymentsProcessed :=
  ⟨band_clamp_and_sum_invariant.1 0 (by decide),
   band_clamp_and_sum_invariant.2.1 7 (by decide),
   (band_clamp_and_sum_invariant.2.2.1 ⟨"e", 100, 1, 9⟩
     EchoAPI.makeDefaultLocalSalary).1,
   (band_clamp_and_sum_invariant.2.2.1 ⟨"e", 100, 1, 9⟩
     EchoAPI.makeDefaultLocalSalary).2 0 (by decide),
   band_clamp_and_sum_invariant.2.2.2
     (EchoAPI.SalaryOp.processPayment ⟨"e", 100, 1, 9⟩)
     EchoAPI.makeDefaultLocalSalary (by decide)⟩

/-- Claim C10: `submitReview` performs no range validation: with a score
outside 1..5 for some category the call still goes through and
increments `totalReviews`, the write lands outside that category's
five-element counter array leaving all five in-range counters
unchanged, and afterwards `totalReviews` strictly exceeds the sum of
that category's five counters. -/
theorem review_out_of_range_inflates_total (ratings : ReviewRatings)
    (r : EchoAPI.LocalReviewState) (cat : Category)
    (hout : ratings.score cat < 1 ∨ 5 < ratings.score cat)
    (hbal : ratingSum (r.ratingCounters.get cat) ≤ r.totalReviews) :
    (EchoAPI.submitReview ratings r).totalReviews = r.totalReviews + 1 ∧
    (EchoAPI.submitReview ratings r).ratingCounters.get cat
      = r.ratingCounters.get cat ∧
    ratingSum ((EchoAPI.submitReview ratings r).ratingCounters.get cat)
      < (EchoAPI.submitReview ratings r).totalReviews := by
  have hcat : (EchoAPI.submitReview ratings r).ratingCounters.get cat
      = r.ratingCounters.get cat := by
    show (bumpAll r.ratingCounters ratings).get cat = _
    rw [bumpAll_get, bumpScore_out_of_range _ _ hout]
  refine ⟨rfl, hcat, ?_⟩
  rw [hcat]
  show ratingSum (r.ratingCounters.get cat) < r.totalReviews + 1
  omega

/-- Witness for C10: a review with culture score 0 on the initial
review state. -/
theorem review_out_of_range_inflates_total_witness :
    ((⟨0, 3, 3, 3, 3⟩ : ReviewRatings).score Category.culture < 1 ∨
      5 < (⟨0, 3, 3, 3, 3⟩ : ReviewRatings).score Category.culture) ∧
    ratingSum (EchoAPI.makeDefaultLocalReview.ratingCounters.get
        Category.culture)
      ≤ EchoAPI.makeDefaultLocalReview.totalReviews ∧
    ((EchoAPI.submitReview ⟨0, 3, 3, 3, 3⟩
          EchoAPI.makeDefaultLocalReview).totalReviews
        = EchoAPI.makeDefaultLocalReview.totalReviews + 1 ∧
      (EchoAPI.submitReview ⟨0, 3, 3, 3, 3⟩
          EchoAPI.makeDefaultLocalReview).ratingCounters.get
          Category.culture
        = EchoAPI.makeDefaultLocalReview.ratingCounters.get
            Category.culture ∧
      ratingSum ((EchoAPI.submitReview ⟨0, 3, 3, 3, 3⟩
          EchoAPI.makeDefaultLocalReview).ratingCounters.get
          Category.culture)
        < (EchoAPI.submitReview ⟨0, 3, 3, 3, 3⟩
            EchoAPI.makeDefaultLocalReview).totalReviews) :=
  ⟨by decide, by decide,
   review_out_of_range_inflates_total ⟨0, 3, 3, 3, 3⟩
     EchoAPI.makeDefaultLocalReview Category.culture
     (by decide) (by decide)⟩

/-- Claim C1: for a valid payment commitment, confirming the receipt
twice with the same payee secret yields `AlreadyClaimed` on the second
call, and the second call returns exactly the state left by the first
call — all counters and the receipt-nullifier set unchanged. -/
theorem double_claim_rejected (payeeSecret commitmentRef r1 r2 : Nat)
    (s : SalaryContract.PaymentRegistry)
    (hc : commitmentRef ∈ s.paymentTree) :
    SalaryContract.confirmSalaryReceipt payeeSecret commitmentRef r2
        (SalaryContract.confirmSalaryReceipt payeeSecret commitmentRef
          r1 s).2
      = (SalaryContract.ConfirmResult.alreadyClaimed,
         (SalaryContract.confirmSalaryReceipt payeeSecret commitmentRef
           r1 s).2) := by
  by_cases hn : SalaryContract.receiptNullifier payeeSecret commitmentRef
      ∈ s.receiptNullifierSet
  · simp [SalaryContract.confirmSalaryReceipt, hc, hn]
  · simp [SalaryContract.confirmSalaryReceipt, hc, hn]

/-- Witness for C1 on the one-commitment registry `demoRegistry`. -/
theorem double_claim_rejected_witness :
    (5 : Nat) ∈ demoRegistry.paymentTree ∧
    SalaryContract.confirmSalaryReceipt 3 5 11
        (SalaryContract.confirmSalaryReceipt 3 5 7 demoRegistry).2
      = (SalaryContract.ConfirmResult.alreadyClaimed,
         (SalaryContract.confirmSalaryReceipt 3 5 7 demoRegistry).2) :=
  ⟨by decide, double_claim_rejected 3 5 7 11 demoRegistry (by decide)⟩

/-- Claim C2: with an imported review token, the first submission in a
period is accepted, a second submission with the same token in the same
period is rejected with `DoubleReview` and leaves the state unchanged,
and after `advanceReviewPeriod` has incremented the period the same
token is accepted again. -/
theorem double_review_per_period
    (tokenSecret randomness ch1 ch2 ch3 : Nat)
    (rt1 rt2 rt3 : ReviewRatings) (s : ReviewContract.ReviewRegistry)
    (htok : ReviewContract.tokenCommitment tokenSecret randomness
      ∈ s.importedTokenTree)
    (hnow : ReviewContract.reviewNullifier tokenSecret s.currentPeriod
      ∉ s.reviewNullifierSet)
    (hnext : ReviewContract.reviewNullifier tokenSecret
      (s.currentPeriod + 1) ∉ s.reviewNullifierSet) :
    (ReviewContract.submitReview tokenSecret randomness ch1 rt1 s).1
        = ReviewContract.SubmitResult.ok ∧
    ReviewContract.submitReview tokenSecret randomness ch2 rt2
        (ReviewContract.submitReview tokenSecret randomness ch1 rt1 s).2
      = (ReviewContract.SubmitResult.doubleReview,
         (ReviewContract.submitReview tokenSecret randomness ch1 rt1
           s).2) ∧
    (ReviewContract.submitReview tokenSecret randomness ch3 rt3
        (ReviewContract.advanceReviewPeriod
          (ReviewContract.submitReview tokenSecret randomness ch1 rt1
            s).2)).1
      = ReviewContract.SubmitResult.ok := by
  have hne : ReviewContract.reviewNullifier tokenSecret
      (s.currentPeriod + 1)
      ≠ ReviewContract.reviewNullifier tokenSecret s.currentPeriod := by
    intro h
    have h2 := (Nat.pair_eq_pair.mp h).2
    omega
  refine ⟨?_, ?_, ?_⟩
  · simp [ReviewContract.submitReview, htok, hnow]
  · simp [ReviewContract.submitReview, htok, hnow]
  · simp [ReviewContract.submitReview, ReviewContract.advanceReviewPeriod,
      htok, hnow, hnext, hne]

/-- Witness for C2 on the one-token registry `demoReviewRegistry`. -/
theorem double_review_per_period_witness :
    ReviewContract.tokenCommitment 2 9
        ∈ demoReviewRegistry.importedTokenTree ∧
    ReviewContract.reviewNullifier 2 demoReviewRegistry.currentPeriod
        ∉ demoReviewRegistry.reviewNullifierSet ∧
    ReviewContract.reviewNullifier 2
        (demoReviewRegistry.currentPeriod + 1)
        ∉ demoReviewRegistry.reviewNullifierSet ∧
    ((ReviewContract.submitReview 2 9 21 ⟨3, 3, 3, 3, 3⟩
          demoReviewRegistry).1 = ReviewContract.SubmitResult.ok ∧
      ReviewContract.submitReview 2 9 22 ⟨4, 4, 4, 4, 4⟩
          (ReviewContract.submitReview 2 9 21 ⟨3, 3, 3, 3, 3⟩
            demoReviewRegistry).2
        = (ReviewContract.SubmitResult.doubleReview,
           (ReviewContract.submitReview 2 9 21 ⟨3, 3, 3, 3, 3⟩
             demoReviewRegistry).2) ∧
      (ReviewContract.submitReview 2 9 23 ⟨5, 5, 5, 5, 5⟩
          (ReviewContract.advanceReviewPeriod
            (ReviewContract.submitReview 2 9 21 ⟨3, 3, 3, 3, 3⟩
              demoReviewRegistry).2)).1
        = ReviewContract.SubmitResult.ok) :=
  ⟨by decide, by decide, by decide,
   double_review_per_period 2 9 21 22 23 ⟨3, 3, 3, 3, 3⟩ ⟨4, 4, 4, 4, 4⟩
     ⟨5, 5, 5, 5, 5⟩ demoReviewRegistry
     (by decide) (by decide) (by decide)⟩
